import Mathlib

/-!
Shallow embedding of the Weather-parser repository.

Sources embedded:
  * src/weather_service.py  -- class WeatherService and get_location_by_ip
  * src/unnamed/part_000    -- legacy class WeatherParser and its module-level
                               get_location_by_ip (identical logic up to print calls)

Modelling conventions:
  * Python JSON values are the inductive type Json; Python numbers (int and float)
    are both modelled as rationals, which is exact for every literal appearing in
    the code and in the claims.
  * A Python dict with string keys is a PyDict, an association list with the usual
    first-match lookup and in-place update.
  * Fallible Python code returns Except PyExc; the except clauses of the source
    catch exactly PyExc.requestException, every other exception propagates.
  * The network is a deterministic oracle Net mapping each outbound request to an
    HttpResult.  requests.get raising (connection error / timeout) is netErr;
    otherwise the oracle yields an HTTP status and a body, where body = none
    models a response whose text is not valid JSON (resp.json() raises a
    JSONDecodeError, a subclass of requests.RequestException, hence caught).
  * Response.raise_for_status of the requests library raises HTTPError exactly
    for status codes 400-599; codes above 599 do not occur in HTTP, so the raise
    condition is modelled as 400 <= status.
  * datetime.now().strftime(...) is modelled by threading the formatted clock
    string as an explicit argument named now.
  * Every embedded entry point also returns the list of outbound HTTP requests it
    issued, so that statements about timeouts and about which provider was called
    can be made.
-/

/-- A JSON value as produced by Response.json(): null, string, number
(int and float collapsed to the rationals), boolean, array or object. -/
inductive Json where
  | null : Json
  | str (s : String) : Json
  | num (q : ℚ) : Json
  | bool (b : Bool) : Json
  | arr (xs : List Json) : Json
  | obj (fields : List (String × Json)) : Json

/-- A Python dict with string keys, as an insertion-ordered association list. -/
abbrev PyDict := List (String × Json)

/-- First-match lookup in a PyDict, i.e. Python dict access semantics. -/
def dget : PyDict → String → Option Json
  | [], _ => none
  | (k', v) :: t, k => if k' = k then some v else dget t k

/-- Python dict.get(key, default). -/
def dgetD (d : PyDict) (k : String) (dflt : Json) : Json :=
  (dget d k).getD dflt

/-- Python dict item assignment d[k] = v: update in place, else append. -/
def dset : PyDict → String → Json → PyDict
  | [], k, v => [(k, v)]
  | (k', v') :: t, k, v => if k' = k then (k, v) :: t else (k', v') :: dset t k v

/-- Python exceptions relevant to the embedded code.  requestException stands for
requests.RequestException and all its subclasses (ConnectionError, Timeout,
HTTPError from raise_for_status, JSONDecodeError); it is the only exception the
try/except blocks of the source catch. -/
inductive PyExc where
  | typeError : PyExc
  | keyError (k : String) : PyExc
  | indexError : PyExc
  | attributeError : PyExc
  | valueError : PyExc
  | requestException : PyExc

/-- Python truthiness of a JSON value: None, "", 0, False, [] and the empty dict
are falsy, everything else is truthy. -/
def truthy : Json → Bool
  | .null => false
  | .str s => decide (s ≠ "")
  | .num q => decide (q ≠ 0)
  | .bool b => b
  | .arr xs => !xs.isEmpty
  | .obj fs => !fs.isEmpty

/-- Python expression a or b on JSON values: a when a is truthy, else b. -/
def pyOrElse (a b : Json) : Json :=
  if truthy a then a else b

/-- Optional Python string as a JSON value (None becomes null). -/
def optStrJson : Option String → Json
  | none => .null
  | some s => .str s

/-- Python attribute call v.get(key, default): succeeds only on dicts, every
other receiver raises AttributeError (None, lists, strings and numbers have no
get method). -/
def jgetE (v : Json) (k : String) (dflt : Json) : Except PyExc Json :=
  match v with
  | .obj fs => .ok (dgetD fs k dflt)
  | _ => .error .attributeError

/-- Python subscript v[k] with a string key: dict lookup raising KeyError on a
missing key; lists and strings require integer indices (TypeError); null,
numbers and booleans are not subscriptable (TypeError). -/
def pySubscript (v : Json) (k : String) : Except PyExc Json :=
  match v with
  | .obj fs =>
    match dget fs k with
    | some x => .ok x
    | none => .error (.keyError k)
  | _ => .error .typeError

/-- Python subscript v[0]: first element of a list (IndexError when empty),
first character of a string, KeyError on a dict without the key 0, TypeError
otherwise. -/
def pySub0 (v : Json) : Except PyExc Json :=
  match v with
  | .arr (x :: _) => .ok x
  | .arr [] => .error .indexError
  | .str s =>
    match s.toList with
    | c :: _ => .ok (.str (String.mk [c]))
    | [] => .error .indexError
  | .obj _ => .error (.keyError "0")
  | _ => .error .typeError

/-- Using a str method (replace / title) on a value: succeeds only on strings,
anything else raises AttributeError. -/
def strAttrE (v : Json) : Except PyExc String :=
  match v with
  | .str s => .ok s
  | _ => .error .attributeError

/-- Python == between a JSON value and a string literal: values of a different
type compare unequal without raising. -/
def pyEqStr (v : Json) (s : String) : Bool :=
  match v with
  | .str t => decide (t = s)
  | _ => false

/-- Whitespace stripped by Python str.strip() on the inputs this code meets
(ASCII whitespace; the rare Unicode space characters are not exercised by the
repository or the claims). -/
def isPySpace (c : Char) : Bool :=
  c = ' ' || c = '\t' || c = '\n' || c = '\r' || c.toNat = 0x0b || c.toNat = 0x0c

/-- Python str.strip(). -/
def pyStrip (s : String) : String :=
  String.mk (((s.toList.dropWhile isPySpace).reverse.dropWhile isPySpace).reverse)

/-- Lowercasing of a single character as Python str.lower() does it, covering
the ASCII and Cyrillic letters that occur in the alias table and the claims. -/
def pyLowerChar (c : Char) : Char :=
  if 0x41 ≤ c.toNat && c.toNat ≤ 0x5A then Char.ofNat (c.toNat + 0x20)
  else if 0x410 ≤ c.toNat && c.toNat ≤ 0x42F then Char.ofNat (c.toNat + 0x20)
  else if c.toNat = 0x401 then Char.ofNat 0x451
  else c

/-- Uppercasing of a single character (ASCII and Cyrillic), as used by
str.title(). -/
def pyUpperChar (c : Char) : Char :=
  if 0x61 ≤ c.toNat && c.toNat ≤ 0x7A then Char.ofNat (c.toNat - 0x20)
  else if 0x430 ≤ c.toNat && c.toNat ≤ 0x44F then Char.ofNat (c.toNat - 0x20)
  else if c.toNat = 0x451 then Char.ofNat 0x401
  else c

/-- Python str.lower(). -/
def pyLower (s : String) : String :=
  String.mk (s.toList.map pyLowerChar)

/-- A cased character in the sense of str.title(): a letter; digits and
punctuation break words. ASCII and Cyrillic letters are covered. -/
def pyIsCased (c : Char) : Bool :=
  (0x41 ≤ c.toNat && c.toNat ≤ 0x5A) || (0x61 ≤ c.toNat && c.toNat ≤ 0x7A) ||
  (0x410 ≤ c.toNat && c.toNat ≤ 0x44F) || c.toNat = 0x401 || c.toNat = 0x451

/-- Character stream of Python str.title(): the first cased character of every
run of cased characters is uppercased, the following ones are lowercased. -/
def pyTitleAux : Bool → List Char → List Char
  | _, [] => []
  | prevCased, c :: cs =>
    if pyIsCased c then
      (if prevCased then pyLowerChar c else pyUpperChar c) :: pyTitleAux true cs
    else
      c :: pyTitleAux false cs

/-- Python str.title(). -/
def pyTitle (s : String) : String :=
  String.mk (pyTitleAux false s.toList)

/-- Python s.replace("-", " "): the general str.replace restricted to the
single-character pattern the source uses. -/
def pyReplaceDash (s : String) : String :=
  String.mk (s.toList.map fun c => if c = '-' then ' ' else c)

/-- Python round() on a rational: round half to even (banker's rounding, the
Python 3 behaviour). -/
def pyRound (q : ℚ) : ℤ :=
  let f : ℤ := q.floor
  let r : ℚ := q - f
  if r < 1 / 2 then f
  else if 1 / 2 < r then f + 1
  else if f % 2 = 0 then f else f + 1

/-- Python round() applied to a JSON value: numbers round, booleans count as
0 / 1, everything else (in particular None from a missing field) raises
TypeError. -/
def pyRoundE (v : Json) : Except PyExc Json :=
  match v with
  | .num q => .ok (.num (pyRound q))
  | .bool b => .ok (.num (if b then 1 else 0))
  | _ => .error .typeError

/-- The guarded rounding of the Yandex formatter:
round(x) if x is not None else None. -/
def roundOrNullE (v : Json) : Except PyExc Json :=
  match v with
  | .null => .ok .null
  | _ => pyRoundE v

/-- Numeric value of a digit list (most significant first). -/
def digitsVal (cs : List Char) : ℚ :=
  cs.foldl (fun a c => a * 10 + ((c.toNat - 48 : ℕ) : ℚ)) 0

/-- Unsigned part of a plain decimal literal: digits, optionally followed by a
dot and more digits, with at least one digit overall. -/
def parseUnsignedFloat (cs : List Char) : Option ℚ :=
  let intPart := cs.takeWhile Char.isDigit
  let rest := cs.dropWhile Char.isDigit
  match rest with
  | [] => if intPart.isEmpty then none else some (digitsVal intPart)
  | '.' :: frac =>
    if frac.all Char.isDigit && (!intPart.isEmpty || !frac.isEmpty) then
      some (digitsVal intPart + digitsVal frac / ((10 : ℚ) ^ frac.length))
    else none
  | _ => none

/-- Python float() on a string: surrounding whitespace stripped, optional sign,
plain decimal notation.  Exponents, inf and nan do not occur in the data this
code parses and are modelled as failures. -/
def pyParseFloat (s : String) : Option ℚ :=
  match (pyStrip s).toList with
  | '+' :: rest => parseUnsignedFloat rest
  | '-' :: rest => (parseUnsignedFloat rest).map (fun q => -q)
  | cs => parseUnsignedFloat cs

/-- Python float() on a JSON value: numbers pass through, booleans become
0 / 1, strings are parsed (ValueError on failure), everything else raises
TypeError. -/
def pyFloatE (v : Json) : Except PyExc ℚ :=
  match v with
  | .num q => .ok q
  | .bool b => .ok (if b then 1 else 0)
  | .str s =>
    match pyParseFloat s with
    | some q => .ok q
    | none => .error .valueError
  | _ => .error .typeError

/-- Truthiness of an optional credential string: configured means present and
non-empty, exactly Python truthiness of Optional[str]. -/
def strTruthy : Option String → Bool
  | none => false
  | some s => decide (s ≠ "")

/-- An outbound HTTP request as issued by requests.get: url, query parameters,
headers (values are Optional[str] because the Yandex key header carries the raw
optional credential), and the timeout argument when one was passed. -/
structure HttpReq where
  url : String
  params : List (String × Json)
  headers : List (String × Option String)
  timeout : Option ℕ

/-- Outcome of one outbound call: netErr models requests.get itself raising
(connection error or timeout); otherwise a status code and a body, where
body = none models a response whose text is not valid JSON. -/
inductive HttpResult where
  | netErr : HttpResult
  | resp (status : ℕ) (body : Option Json) : HttpResult

/-- The network as a deterministic oracle from requests to outcomes. -/
abbrev Net := HttpReq → HttpResult

/-- The common try block around every call of the source:
requests.get(...), raise_for_status(), resp.json().  Returns none exactly when
a requests.RequestException was raised and caught: network error or timeout,
HTTP error status (raise_for_status raises for 400-599), or undecodable JSON
body.  Statuses above 599 do not occur in HTTP. -/
def tryGetJson (net : Net) (req : HttpReq) : Option Json :=
  match net req with
  | .netErr => none
  | .resp s body => if 400 ≤ s then none else body

/-- An outbound call whose outcome makes the surrounding try block catch a
requests.RequestException: network error / timeout, HTTP error status, or a
body that is not valid JSON. -/
def failedCall : HttpResult → Bool
  | .netErr => true
  | .resp _ none => true
  | .resp s (some _) => decide (400 ≤ s)

/-- The service state built by WeatherService.__init__: the OpenWeatherMap key
(argument or OPENWEATHER_API_KEY) and the Yandex key (YANDEX_WEATHER_API_KEY),
each possibly absent. -/
structure WeatherService where
  api_key : Option String
  yandex_api_key : Option String

/-- self.base_url of WeatherService. -/
def WeatherService.base_url : String := "http://api.openweathermap.org/data/2.5/weather"

/-- self.yandex_url of WeatherService. -/
def WeatherService.yandex_url : String := "https://api.weather.yandex.ru/v2/forecast"

/-- The Nominatim geocoding endpoint used by _geocode_city. -/
def nominatimUrl : String := "https://nominatim.openstreetmap.org/search"

/-- self.city_aliases of WeatherService: frequent city aliases, keys in lower
case. -/
def WeatherService.city_aliases : List (String × String) :=
  [("спб", "Санкт-Петербург"), ("spb", "Санкт-Петербург"), ("питер", "Санкт-Петербург"),
   ("ленинград", "Санкт-Петербург"), ("мск", "Москва"), ("msk", "Москва"),
   ("москва", "Москва")]

/-- dict.get(key, default) on the string-to-string alias table. -/
def aliasGetD : List (String × String) → String → String → String
  | [], _, dflt => dflt
  | (k', v) :: t, k, dflt => if k' = k then v else aliasGetD t k dflt

/-- WeatherService._normalize_city_name: empty input is returned as is;
otherwise the stripped, lowercased name is looked up in the alias table, with
the stripped original as the default. -/
def WeatherService._normalize_city_name (city_name : String) : String :=
  if city_name = "" then city_name
  else aliasGetD WeatherService.city_aliases (pyLower (pyStrip city_name)) (pyStrip city_name)

/-- WeatherService._get_weather_mock: the fixed demo record. -/
def WeatherService._get_weather_mock (city_name : String) (now : String) : PyDict :=
  [("city", .str city_name), ("temperature", .num 22), ("description", .str "Ясно"),
   ("humidity", .num 65), ("pressure", .num 1013), ("wind_speed", .num 3.2),
   ("timestamp", .str now)]

/-- WeatherService._format_weather_data: the OpenWeatherMap response mapping.
The binds follow the evaluation order of the source dict literal, so the first
failing field access determines the raised exception. -/
def WeatherService._format_weather_data (data : Json) (now : String) : Except PyExc PyDict := do
  let city ← jgetE data "name" .null
  let sys ← jgetE data "sys" (.obj [])
  let country ← jgetE sys "country" .null
  let main1 ← jgetE data "main" (.obj [])
  let tempv ← jgetE main1 "temp" .null
  let temperature ← pyRoundE tempv
  let main2 ← jgetE data "main" (.obj [])
  let feelsv ← jgetE main2 "feels_like" .null
  let feels_like ← pyRoundE feelsv
  let weather ← jgetE data "weather" (.arr [.obj []])
  let w0 ← pySub0 weather
  let descv ← jgetE w0 "description" (.str "")
  let descs ← strAttrE descv
  let main3 ← jgetE data "main" (.obj [])
  let humidity ← jgetE main3 "humidity" .null
  let main4 ← jgetE data "main" (.obj [])
  let pressure ← jgetE main4 "pressure" .null
  let wind ← jgetE data "wind" (.obj [])
  let wind_speed ← jgetE wind "speed" .null
  pure [("city", city), ("country", country), ("temperature", temperature),
        ("feels_like", feels_like), ("description", .str (pyTitle descs)),
        ("humidity", humidity), ("pressure", pressure), ("wind_speed", wind_speed),
        ("timestamp", .str now)]

/-- WeatherService._format_yandex_data: the Yandex Weather response mapping.
Missing fact fields become null values guarded from rounding; the condition
text gets hyphens replaced by spaces and is then title-cased; pressure_mm is
passed through unconverted; the city falls back from the geo locality to the
caller-supplied name. -/
def WeatherService._format_yandex_data (data : Json) (fallback_city : Option String)
    (now : String) : Except PyExc PyDict := do
  let fact ← jgetE data "fact" (.obj [])
  let geo ← jgetE data "geo_object" (.obj [])
  let locv ← jgetE geo "locality" .null
  let locality ← jgetE (pyOrElse locv (.obj [])) "name" .null
  let ctryv ← jgetE geo "country" .null
  let country_name ← jgetE (pyOrElse ctryv (.obj [])) "name" .null
  let temperature ← jgetE fact "temp" .null
  let feels_like ← jgetE fact "feels_like" .null
  let condv ← jgetE fact "condition" (.str "")
  let conds ← strAttrE condv
  let humidity ← jgetE fact "humidity" .null
  let pressure ← jgetE fact "pressure_mm" .null
  let wind_speed ← jgetE fact "wind_speed" .null
  let tJ ← roundOrNullE temperature
  let fJ ← roundOrNullE feels_like
  pure [("city", pyOrElse locality (pyOrElse (optStrJson fallback_city) (.str "Ваш город"))),
        ("country", country_name), ("temperature", tJ), ("feels_like", fJ),
        ("description", .str (pyTitle (pyReplaceDash conds))), ("humidity", humidity),
        ("pressure", pressure), ("wind_speed", wind_speed), ("timestamp", .str now)]

/-- The OpenWeatherMap request issued by WeatherService.get_weather_by_city. -/
def owmCityReq (key : Option String) (city : String) : HttpReq :=
  { url := WeatherService.base_url,
    params := [("q", .str city), ("appid", optStrJson key), ("units", .str "metric"),
               ("lang", .str "ru")],
    headers := [],
    timeout := some 10 }

/-- The OpenWeatherMap request issued by WeatherService.get_weather_by_coords. -/
def owmCoordsReq (key : Option String) (la lo : ℚ) : HttpReq :=
  { url := WeatherService.base_url,
    params := [("lat", .num la), ("lon", .num lo), ("appid", optStrJson key),
               ("units", .str "metric"), ("lang", .str "ru")],
    headers := [],
    timeout := some 10 }

/-- The Nominatim request issued by WeatherService._geocode_city. -/
def nominatimReq (city : String) : HttpReq :=
  { url := nominatimUrl,
    params := [("q", .str city), ("format", .str "json"), ("limit", .num 1),
               ("accept-language", .str "ru")],
    headers := [("User-Agent", some "weather-parser-app/1.0")],
    timeout := some 10 }

/-- The Yandex forecast request issued by WeatherService._get_yandex_by_coords. -/
def yandexForecastReq (key : Option String) (la lo : ℚ) : HttpReq :=
  { url := WeatherService.yandex_url,
    params := [("lat", .num la), ("lon", .num lo), ("lang", .str "ru")],
    headers := [("X-Yandex-Weather-Key", key)],
    timeout := some 10 }

/-- WeatherService._geocode_city: normalize, query Nominatim (limit 1), return
the coordinates of the first match; None on a caught request failure or an
empty (falsy) match list.  float() on the lat / lon strings can raise. -/
def WeatherService._geocode_city (_svc : WeatherService) (city_name : String)
    (net : Net) : Except PyExc (Option (ℚ × ℚ)) × List HttpReq :=
  let city := WeatherService._normalize_city_name city_name
  let req := nominatimReq city
  (match tryGetJson net req with
   | none => .ok none
   | some items =>
     if !truthy items then .ok none
     else do
       let item ← pySub0 items
       let latv ← pySubscript item "lat"
       let la ← pyFloatE latv
       let lonv ← pySubscript item "lon"
       let lo ← pyFloatE lonv
       pure (some (la, lo)),
   [req])

/-- WeatherService._get_yandex_by_coords: one forecast call with the key
header; a caught request failure yields None; on success the formatted record
is tagged with source live_yandex. -/
def WeatherService._get_yandex_by_coords (svc : WeatherService) (latitude longitude : ℚ)
    (fallback_city : Option String) (net : Net) (now : String) :
    Except PyExc (Option PyDict) × List HttpReq :=
  let req := yandexForecastReq svc.yandex_api_key latitude longitude
  (match tryGetJson net req with
   | none => .ok none
   | some data =>
     match WeatherService._format_yandex_data data fallback_city now with
     | .error e => .error e
     | .ok d => .ok (some (dset d "source" (.str "live_yandex"))),
   [req])

/-- WeatherService._get_yandex_by_city: geocode first; a missing geocode result
aborts with None, otherwise the coordinates are forwarded with the city as
fallback. -/
def WeatherService._get_yandex_by_city (svc : WeatherService) (city_name : String)
    (net : Net) (now : String) : Except PyExc (Option PyDict) × List HttpReq :=
  match WeatherService._geocode_city svc city_name net with
  | (.error e, lg) => (.error e, lg)
  | (.ok none, lg) => (.ok none, lg)
  | (.ok (some (la, lo)), lg) =>
    let r := WeatherService._get_yandex_by_coords svc la lo (some city_name) net now
    (r.1, lg ++ r.2)

/-- WeatherService.get_weather_by_city: normalize the name, then Yandex if its
key is configured, else OpenWeatherMap if that key is configured, else the mock
record tagged with source mock. -/
def WeatherService.get_weather_by_city (svc : WeatherService) (city_name : String)
    (net : Net) (now : String) : Except PyExc (Option PyDict) × List HttpReq :=
  let city := WeatherService._normalize_city_name city_name
  if strTruthy svc.yandex_api_key then
    WeatherService._get_yandex_by_city svc city net now
  else if !strTruthy svc.api_key then
    (.ok (some (dset (WeatherService._get_weather_mock city now) "source" (.str "mock"))), [])
  else
    let req := owmCityReq svc.api_key city
    (match tryGetJson net req with
     | none => .ok none
     | some data =>
       match WeatherService._format_weather_data data now with
       | .error e => .error e
       | .ok d => .ok (some (dset d "source" (.str "live"))),
     [req])

/-- Python expression fallback_city or "Ваш город" on an Optional[str]. -/
def orDefaultCity : Option String → String
  | none => "Ваш город"
  | some s => if s = "" then "Ваш город" else s

/-- WeatherService.get_weather_by_coords: same provider priority as the city
lookup; the mock branch uses the fallback city or the generic placeholder. -/
def WeatherService.get_weather_by_coords (svc : WeatherService) (latitude longitude : ℚ)
    (fallback_city : Option String) (net : Net) (now : String) :
    Except PyExc (Option PyDict) × List HttpReq :=
  if strTruthy svc.yandex_api_key then
    WeatherService._get_yandex_by_coords svc latitude longitude fallback_city net now
  else if !strTruthy svc.api_key then
    (.ok (some (dset (WeatherService._get_weather_mock (orDefaultCity fallback_city) now)
      "source" (.str "mock"))), [])
  else
    let req := owmCoordsReq svc.api_key latitude longitude
    (match tryGetJson net req with
     | none => .ok none
     | some data =>
       match WeatherService._format_weather_data data now with
       | .error e => .error e
       | .ok d => .ok (some (dset d "source" (.str "live"))),
     [req])

/-- The legacy parser state of src/unnamed/part_000: only the OpenWeatherMap
key. -/
structure WeatherParser where
  api_key : Option String

/-- self.base_url of WeatherParser (same literal as the service). -/
def WeatherParser.base_url : String := "http://api.openweathermap.org/data/2.5/weather"

/-- The OpenWeatherMap request of WeatherParser.get_weather_by_city: identical
parameters, but requests.get is called with no timeout argument. -/
def wpCityReq (key : Option String) (city : String) : HttpReq :=
  { url := WeatherParser.base_url,
    params := [("q", .str city), ("appid", optStrJson key), ("units", .str "metric"),
               ("lang", .str "ru")],
    headers := [],
    timeout := none }

/-- The OpenWeatherMap request of WeatherParser.get_weather_by_coords, again
with no timeout argument. -/
def wpCoordsReq (key : Option String) (la lo : ℚ) : HttpReq :=
  { url := WeatherParser.base_url,
    params := [("lat", .num la), ("lon", .num lo), ("appid", optStrJson key),
               ("units", .str "metric"), ("lang", .str "ru")],
    headers := [],
    timeout := none }

/-- WeatherParser._get_weather_mock: same fixed values as the service mock, but
the record carries no source entry. -/
def WeatherParser._get_weather_mock (city_name : String) (now : String) : PyDict :=
  [("city", .str city_name), ("temperature", .num 22), ("description", .str "Ясно"),
   ("humidity", .num 65), ("pressure", .num 1013), ("wind_speed", .num 3.2),
   ("timestamp", .str now)]

/-- WeatherParser._format_weather_data: like the service formatter but with
plain subscripts, so a missing key raises KeyError; no source entry is added
anywhere on this path. -/
def WeatherParser._format_weather_data (data : Json) (now : String) : Except PyExc PyDict := do
  let city ← pySubscript data "name"
  let sys ← pySubscript data "sys"
  let country ← pySubscript sys "country"
  let main1 ← pySubscript data "main"
  let tempv ← pySubscript main1 "temp"
  let temperature ← pyRoundE tempv
  let main2 ← pySubscript data "main"
  let feelsv ← pySubscript main2 "feels_like"
  let feels_like ← pyRoundE feelsv
  let weather ← pySubscript data "weather"
  let w0 ← pySub0 weather
  let descv ← pySubscript w0 "description"
  let descs ← strAttrE descv
  let main3 ← pySubscript data "main"
  let humidity ← pySubscript main3 "humidity"
  let main4 ← pySubscript data "main"
  let pressure ← pySubscript main4 "pressure"
  let wind ← pySubscript data "wind"
  let wind_speed ← pySubscript wind "speed"
  pure [("city", city), ("country", country), ("temperature", temperature),
        ("feels_like", feels_like), ("description", .str (pyTitle descs)),
        ("humidity", humidity), ("pressure", pressure), ("wind_speed", wind_speed),
        ("timestamp", .str now)]

/-- WeatherParser.get_weather_by_city: mock when no key (raw city name, no
normalization, no source tag); otherwise one OpenWeatherMap call without a
timeout, catching only request exceptions. -/
def WeatherParser.get_weather_by_city (p : WeatherParser) (city_name : String)
    (net : Net) (now : String) : Except PyExc (Option PyDict) × List HttpReq :=
  if !strTruthy p.api_key then
    (.ok (some (WeatherParser._get_weather_mock city_name now)), [])
  else
    let req := wpCityReq p.api_key city_name
    (match tryGetJson net req with
     | none => .ok none
     | some data =>
       match WeatherParser._format_weather_data data now with
       | .error e => .error e
       | .ok d => .ok (some d),
     [req])

/-- WeatherParser.get_weather_by_coords: the coordinate variant of the legacy
lookup, also without a timeout argument. -/
def WeatherParser.get_weather_by_coords (p : WeatherParser) (latitude longitude : ℚ)
    (fallback_city : Option String) (net : Net) (now : String) :
    Except PyExc (Option PyDict) × List HttpReq :=
  if !strTruthy p.api_key then
    (.ok (some (WeatherParser._get_weather_mock (orDefaultCity fallback_city) now)), [])
  else
    let req := wpCoordsReq p.api_key latitude longitude
    (match tryGetJson net req with
     | none => .ok none
     | some data =>
       match WeatherParser._format_weather_data data now with
       | .error e => .error e
       | .ok d => .ok (some d),
     [req])

/-- The ip-api.com request of get_location_by_ip, with timeout 5. -/
def ipApiReq : HttpReq :=
  { url := "http://ip-api.com/json/", params := [], headers := [], timeout := some 5 }

/-- get_location_by_ip, embedding both identical module-level definitions (the
legacy one only adds print calls): one call to ip-api.com; None on a caught
request failure or a status field different from "success"; otherwise the city
(with a generic placeholder) plus the raw lat / lon values. -/
def get_location_by_ip (net : Net) : Except PyExc (Option PyDict) × List HttpReq :=
  (match tryGetJson net ipApiReq with
   | none => .ok none
   | some data => do
     let st ← jgetE data "status" .null
     if pyEqStr st "success" then
       let c ← jgetE data "city" .null
       let la ← jgetE data "lat" .null
       let lo ← jgetE data "lon" .null
       pure (some [("city", pyOrElse c (.str "Ваш город")), ("lat", la), ("lon", lo)])
     else
       pure none,
   [ipApiReq])

/-- A geocoding outcome that the source maps to the absent result: request
failure (caught exception) or a falsy JSON body such as the empty match
list. -/
def geoMissB : HttpResult → Bool
  | .netErr => true
  | .resp _ none => true
  | .resp s (some b) => decide (400 ≤ s) || !truthy b

/-- The required (non-optional) keys of a returned weather record, per the
specified data model. -/
def requiredKeys : List String :=
  ["city", "temperature", "description", "humidity", "pressure", "wind_speed",
   "timestamp", "source"]

/-- All required keys are present in the dict (whatever their values). -/
def hasAllKeys (d : PyDict) : Bool :=
  requiredKeys.all fun k => (dget d k).isSome

/-- Modelled from the spec, for comparison with the source function: trim
whitespace and lowercase for the alias lookup only; if the lowercased, trimmed
name matches a known alias, substitute the canonical city name; otherwise use
the trimmed original casing. -/
def specNormalizeCity (s : String) : String :=
  aliasGetD WeatherService.city_aliases (pyLower (pyStrip s)) (pyStrip s)

/-- Demo fact object of a successful Yandex forecast body (temp and feels_like
omitted by the provider). -/
def yandexDemoFact : PyDict :=
  [("condition", .str "partly-cloudy"), ("pressure_mm", .num 745), ("humidity", .num 80),
   ("wind_speed", .num 5)]

/-- Demo geo object of a successful Yandex forecast body. -/
def yandexDemoGeo : PyDict :=
  [("locality", .obj [("name", .str "Москва")]), ("country", .obj [("name", .str "Россия")])]

/-- Demo body of a successful Yandex forecast response. -/
def yandexDemoBody : Json :=
  .obj [("fact", .obj yandexDemoFact), ("geo_object", .obj yandexDemoGeo)]

-- ### Helper lemmas ###

/-- Inversion of a successful Except bind. -/
theorem bindE_ok {α β : Type} {x : Except PyExc α} {f : α → Except PyExc β} {b : β}
    (h : (x >>= f) = .ok b) : ∃ a, x = .ok a ∧ f a = .ok b := by
  cases x with
  | error e => exact Except.noConfusion h
  | ok a => exact ⟨a, rfl, h⟩

/-- Looking up the key just assigned yields the assigned value. -/
theorem dget_dset_self (d : PyDict) (k : String) (v : Json) :
    dget (dset d k v) k = some v := by
  induction d with
  | nil => simp [dset, dget]
  | cons hd t ih =>
    by_cases h : hd.1 = k
    · simp [dset, dget, h]
    · simp [dset, dget, h, ih]

/-- Assignment to one key leaves the other keys unchanged. -/
theorem dget_dset_ne (d : PyDict) (k : String) (v : Json) (k' : String) (h : k ≠ k') :
    dget (dset d k v) k' = dget d k' := by
  induction d with
  | nil => simp [dset, dget, h]
  | cons hd t ih =>
    by_cases h2 : hd.1 = k
    · simp [dset, dget, h2, h]
    · by_cases h3 : hd.1 = k'
      · simp [dset, dget, h2, h3, Ne.symm h]
      · simp [dset, dget, h2, h3, ih]

/-- A failed outbound call makes the shared try block yield no JSON. -/
theorem tryGetJson_of_failed {net : Net} {req : HttpReq}
    (h : failedCall (net req) = true) : tryGetJson net req = none := by
  unfold tryGetJson
  cases hr : net req with
  | netErr => rfl
  | resp s body =>
    rw [hr] at h
    cases body with
    | none => by_cases hs : 400 ≤ s <;> simp [hs]
    | some b =>
      simp only [failedCall, decide_eq_true_eq] at h
      simp [h]

/-- On a missed geocode, _geocode_city returns None having issued exactly the
one Nominatim request. -/
theorem geocode_none_of_miss {net : Net} (svc : WeatherService) (cn : String)
    (h : geoMissB (net (nominatimReq (WeatherService._normalize_city_name cn))) = true) :
    WeatherService._geocode_city svc cn net =
      (.ok none, [nominatimReq (WeatherService._normalize_city_name cn)]) := by
  cases hr : net (nominatimReq (WeatherService._normalize_city_name cn)) with
  | netErr => simp [WeatherService._geocode_city, tryGetJson, hr]
  | resp s body =>
    rw [hr] at h
    cases body with
    | none =>
      by_cases hs : 400 ≤ s <;> simp [WeatherService._geocode_city, tryGetJson, hr, hs]
    | some b =>
      simp only [geoMissB, Bool.or_eq_true, decide_eq_true_eq, Bool.not_eq_true'] at h
      rcases h with hs | hb
      · simp [WeatherService._geocode_city, tryGetJson, hr, hs]
      · by_cases hs : 400 ≤ s <;>
          simp [WeatherService._geocode_city, tryGetJson, hr, hs, hb]

/-- Each record produced by the OpenWeatherMap formatter has exactly the nine
fixed keys, in source order. -/
theorem format_weather_shape {data : Json} {now : String} {d : PyDict}
    (h : WeatherService._format_weather_data data now = .ok d) :
    ∃ c co t f de hu p w,
      d = [("city", c), ("country", co), ("temperature", t), ("feels_like", f),
           ("description", de), ("humidity", hu), ("pressure", p), ("wind_speed", w),
           ("timestamp", .str now)] := by
  unfold WeatherService._format_weather_data at h
  obtain ⟨city, _, h⟩ := bindE_ok h
  obtain ⟨sys, _, h⟩ := bindE_ok h
  obtain ⟨country, _, h⟩ := bindE_ok h
  obtain ⟨main1, _, h⟩ := bindE_ok h
  obtain ⟨tempv, _, h⟩ := bindE_ok h
  obtain ⟨temperature, _, h⟩ := bindE_ok h
  obtain ⟨main2, _, h⟩ := bindE_ok h
  obtain ⟨feelsv, _, h⟩ := bindE_ok h
  obtain ⟨feels_like, _, h⟩ := bindE_ok h
  obtain ⟨weather, _, h⟩ := bindE_ok h
  obtain ⟨w0, _, h⟩ := bindE_ok h
  obtain ⟨descv, _, h⟩ := bindE_ok h
  obtain ⟨descs, _, h⟩ := bindE_ok h
  obtain ⟨main3, _, h⟩ := bindE_ok h
  obtain ⟨humidity, _, h⟩ := bindE_ok h
  obtain ⟨main4, _, h⟩ := bindE_ok h
  obtain ⟨pressure, _, h⟩ := bindE_ok h
  obtain ⟨wind, _, h⟩ := bindE_ok h
  obtain ⟨wind_speed, _, h⟩ := bindE_ok h
  exact ⟨city, country, temperature, feels_like, .str (pyTitle descs), humidity,
    pressure, wind_speed, by injection h with h; exact h.symm⟩

/-- Each record produced by the Yandex formatter has exactly the nine fixed
keys, in source order. -/
theorem format_yandex_shape {data : Json} {fb : Option String} {now : String} {d : PyDict}
    (h : WeatherService._format_yandex_data data fb now = .ok d) :
    ∃ c co t f de hu p w,
      d = [("city", c), ("country", co), ("temperature", t), ("feels_like", f),
           ("description", de), ("humidity", hu), ("pressure", p), ("wind_speed", w),
           ("timestamp", .str now)] := by
  unfold WeatherService._format_yandex_data at h
  obtain ⟨fact, _, h⟩ := bindE_ok h
  obtain ⟨geo, _, h⟩ := bindE_ok h
  obtain ⟨locv, _, h⟩ := bindE_ok h
  obtain ⟨locality, _, h⟩ := bindE_ok h
  obtain ⟨ctryv, _, h⟩ := bindE_ok h
  obtain ⟨country_name, _, h⟩ := bindE_ok h
  obtain ⟨temperature, _, h⟩ := bindE_ok h
  obtain ⟨feels_like, _, h⟩ := bindE_ok h
  obtain ⟨condv, _, h⟩ := bindE_ok h
  obtain ⟨conds, _, h⟩ := bindE_ok h
  obtain ⟨humidity, _, h⟩ := bindE_ok h
  obtain ⟨pressure, _, h⟩ := bindE_ok h
  obtain ⟨wind_speed, _, h⟩ := bindE_ok h
  obtain ⟨tJ, _, h⟩ := bindE_ok h
  obtain ⟨fJ, _, h⟩ := bindE_ok h
  exact ⟨pyOrElse locality (pyOrElse (optStrJson fb) (.str "Ваш город")), country_name,
    tJ, fJ, .str (pyTitle (pyReplaceDash conds)), humidity, pressure, wind_speed,
    by injection h with h; exact h.symm⟩

/-- Reduction of dict.get on an actual dict. -/
theorem jgetE_obj (fs : PyDict) (k : String) (dflt : Json) :
    jgetE (.obj fs) k dflt = .ok (dgetD fs k dflt) := rfl

/-- Every failed call is in particular a geocode miss. -/
theorem geoMiss_of_failed {x : HttpResult} (h : failedCall x = true) : geoMissB x = true := by
  cases x with
  | netErr => rfl
  | resp s b =>
    cases b with
    | none => rfl
    | some j =>
      simp only [failedCall] at h
      simp [geoMissB, h]

/-- After tagging a nine-key record with a source, all required keys are
present. -/
theorem hasAllKeys_of_shape9 (c co t f de hu p w src : Json) (now : String) :
    hasAllKeys (dset [("city", c), ("country", co), ("temperature", t), ("feels_like", f),
      ("description", de), ("humidity", hu), ("pressure", p), ("wind_speed", w),
      ("timestamp", .str now)] "source" src) = true := by
  rfl

/-- Any record the Yandex coordinate path returns carries all required keys. -/
theorem yandex_coords_all_keys {svc : WeatherService} {la lo : ℚ} {fb : Option String}
    {net : Net} {now : String} {d : PyDict}
    (h : (WeatherService._get_yandex_by_coords svc la lo fb net now).1 = .ok (some d)) :
    hasAllKeys d = true := by
  simp only [WeatherService._get_yandex_by_coords] at h
  cases htj : tryGetJson net (yandexForecastReq svc.yandex_api_key la lo) with
  | none => rw [htj] at h; exact Option.noConfusion (Except.ok.inj h)
  | some data =>
    rw [htj] at h
    simp only [] at h
    cases hfm : WeatherService._format_yandex_data data fb now with
    | error e => rw [hfm] at h; exact Except.noConfusion h
    | ok d0 =>
      rw [hfm] at h
      obtain ⟨c, co, t, f, de, hu, p, w, hd0⟩ := format_yandex_shape hfm
      have hd : d = dset d0 "source" (.str "live_yandex") :=
        (Option.some.inj (Except.ok.inj h)).symm
      rw [hd, hd0]
      exact hasAllKeys_of_shape9 c co t f de hu p w (.str "live_yandex") now

-- ### Claim theorems ###

/-- C7: city-name normalization agrees everywhere with the specified rule
(trim, lowercase for alias lookup only, substitute the canonical name on a
match, else pass through trimmed with the original casing), and every listed
alias maps to its canonical city while unknown names pass through trimmed. -/
theorem normalize_city_spec :
    (∀ s, WeatherService._normalize_city_name s = specNormalizeCity s) ∧
    WeatherService._normalize_city_name " СПБ " = "Санкт-Петербург" ∧
    WeatherService._normalize_city_name "spb" = "Санкт-Петербург" ∧
    WeatherService._normalize_city_name "питер" = "Санкт-Петербург" ∧
    WeatherService._normalize_city_name "ленинград" = "Санкт-Петербург" ∧
    WeatherService._normalize_city_name "мск" = "Москва" ∧
    WeatherService._normalize_city_name "MSK" = "Москва" ∧
    WeatherService._normalize_city_name " Paris " = "Paris" := by
  refine ⟨fun s => ?_, rfl, rfl, rfl, rfl, rfl, rfl, rfl⟩
  by_cases h : s = ""
  · subst h; rfl
  · simp [WeatherService._normalize_city_name, specNormalizeCity, h]

/-- C4 counterexample: the legacy WeatherParser lookup with no credential
returns the fixed mock values but its record carries no source entry at all,
so the claim that every mock lookup result is stamped with source mock fails
on the cited legacy path. -/
theorem mock_source_tag_cex :
    ((WeatherParser.mk none).get_weather_by_city "AnyCity" (fun _ => .netErr)
        "2024-06-01 12:00:00").1 =
      .ok (some (WeatherParser._get_weather_mock "AnyCity" "2024-06-01 12:00:00")) ∧
    dget (WeatherParser._get_weather_mock "AnyCity" "2024-06-01 12:00:00") "source" = none ∧
    dget (WeatherParser._get_weather_mock "AnyCity" "2024-06-01 12:00:00") "temperature" =
      some (.num 22) := ⟨rfl, rfl, rfl⟩

/-- C4 (amended): with no credentials configured, a city lookup always
succeeds with the deterministic values 22, Ясно, 65, 1013, 3.2 and the current
timestamp, independent of the input city; the WeatherService record is stamped
with source mock, while the legacy WeatherParser record carries the same fixed
values but no source entry. -/
theorem mock_mode_fixed_record (city : String) (net : Net) (now : String) :
    ((WeatherService.mk none none).get_weather_by_city city net now).1 =
      .ok (some [("city", .str (WeatherService._normalize_city_name city)),
        ("temperature", .num 22), ("description", .str "Ясно"), ("humidity", .num 65),
        ("pressure", .num 1013), ("wind_speed", .num 3.2), ("timestamp", .str now),
        ("source", .str "mock")]) ∧
    ((WeatherService.mk none none).get_weather_by_city city net now).2 = [] ∧
    ((WeatherParser.mk none).get_weather_by_city city net now).1 =
      .ok (some [("city", .str city), ("temperature", .num 22), ("description", .str "Ясно"),
        ("humidity", .num 65), ("pressure", .num 1013), ("wind_speed", .num 3.2),
        ("timestamp", .str now)]) :=
  ⟨rfl, rfl, rfl⟩

/-- C10: in mock mode the city entry of the returned record is the
alias-normalized query, not the raw input; in particular the query спб yields
the mock record for Санкт-Петербург. -/
theorem mock_city_is_normalized (q : String) (net : Net) (now : String) :
    dget (dset (WeatherService._get_weather_mock (WeatherService._normalize_city_name q) now)
        "source" (.str "mock")) "city" =
      some (.str (WeatherService._normalize_city_name q)) ∧
    ((WeatherService.mk none none).get_weather_by_city q net now).1 =
      .ok (some (dset (WeatherService._get_weather_mock
        (WeatherService._normalize_city_name q) now) "source" (.str "mock"))) ∧
    ((WeatherService.mk none none).get_weather_by_city "спб" net now).1 =
      .ok (some (dset (WeatherService._get_weather_mock "Санкт-Петербург" now)
        "source" (.str "mock"))) :=
  ⟨rfl, rfl, rfl⟩

/-- C3: provider priority for both query kinds: a configured Yandex key routes
the whole lookup through the Yandex path (whatever the OpenWeatherMap key is);
otherwise a configured OpenWeatherMap key makes the lookup issue exactly one
call to the OpenWeatherMap endpoint; with no keys the mock record is returned
without any outbound call. -/
theorem provider_priority (svc : WeatherService) (city : String) (la lo : ℚ)
    (fb : Option String) (net : Net) (now : String) :
    (strTruthy svc.yandex_api_key = true →
      svc.get_weather_by_city city net now =
        WeatherService._get_yandex_by_city svc
          (WeatherService._normalize_city_name city) net now ∧
      svc.get_weather_by_coords la lo fb net now =
        WeatherService._get_yandex_by_coords svc la lo fb net now) ∧
    (strTruthy svc.yandex_api_key = false → strTruthy svc.api_key = true →
      (svc.get_weather_by_city city net now).2 =
        [owmCityReq svc.api_key (WeatherService._normalize_city_name city)] ∧
      (svc.get_weather_by_coords la lo fb net now).2 = [owmCoordsReq svc.api_key la lo]) ∧
    (strTruthy svc.yandex_api_key = false → strTruthy svc.api_key = false →
      svc.get_weather_by_city city net now =
        (.ok (some (dset (WeatherService._get_weather_mock
          (WeatherService._normalize_city_name city) now) "source" (.str "mock"))), []) ∧
      svc.get_weather_by_coords la lo fb net now =
        (.ok (some (dset (WeatherService._get_weather_mock (orDefaultCity fb) now)
          "source" (.str "mock"))), [])) := by
  refine ⟨fun hY => ?_, fun hY hA => ?_, fun hY hA => ?_⟩
  · constructor
    · simp [WeatherService.get_weather_by_city, hY]
    · simp [WeatherService.get_weather_by_coords, hY]
  · constructor
    · simp [WeatherService.get_weather_by_city, hY, hA]
    · simp [WeatherService.get_weather_by_coords, hY, hA]
  · constructor
    · simp [WeatherService.get_weather_by_city, hY, hA]
    · simp [WeatherService.get_weather_by_coords, hY, hA]

/-- C3 witness: with both credentials configured the city lookup is exactly
the Yandex path. -/
theorem provider_priority_witness :
    (WeatherService.mk (some "ow") (some "ya")).get_weather_by_city "Москва"
        (fun _ => .netErr) "t" =
      WeatherService._get_yandex_by_city (WeatherService.mk (some "ow") (some "ya"))
        "Москва" (fun _ => .netErr) "t" :=
  ((provider_priority (WeatherService.mk (some "ow") (some "ya")) "Москва" 0 0 none
    (fun _ => .netErr) "t").1 rfl).1

/-- C6: with a Yandex credential, a city query whose geocoding call fails or
yields an empty (falsy) match list makes the whole lookup return absent, and
the only request issued is the one Nominatim call (no forecast call). -/
theorem yandex_geocode_miss_absent (svc : WeatherService) (city : String) (net : Net)
    (now : String) (hY : strTruthy svc.yandex_api_key = true)
    (h : geoMissB (net (nominatimReq (WeatherService._normalize_city_name
      (WeatherService._normalize_city_name city)))) = true) :
    svc.get_weather_by_city city net now =
      (.ok none, [nominatimReq (WeatherService._normalize_city_name
        (WeatherService._normalize_city_name city))]) := by
  have hg := geocode_none_of_miss svc (WeatherService._normalize_city_name city) h
  simp [WeatherService.get_weather_by_city, hY, WeatherService._get_yandex_by_city, hg]

/-- C6 witness: a geocode returning the empty match list yields the absent
result after exactly one Nominatim request. -/
theorem yandex_geocode_miss_absent_witness :
    (WeatherService.mk none (some "yk")).get_weather_by_city "Nowhereville"
        (fun _ => .resp 200 (some (.arr []))) "t" =
      (.ok none, [nominatimReq "Nowhereville"]) :=
  yandex_geocode_miss_absent (WeatherService.mk none (some "yk")) "Nowhereville"
    (fun _ => .resp 200 (some (.arr []))) "t" rfl rfl

/-- C9: the IP-based resolver returns absent on a network failure, on an HTTP
error status and on any JSON object body whose status field differs from
success; on a success-status body it returns the record with the city entry
(falling back to the generic placeholder, hence always truthy) together with
the lat and lon entries passed through from the provider. -/
theorem ip_location_contract (net : Net) (s : ℕ) (df : PyDict) :
    (net ipApiReq = .netErr → (get_location_by_ip net).1 = .ok none) ∧
    (∀ b, net ipApiReq = .resp s b → 400 ≤ s → (get_location_by_ip net).1 = .ok none) ∧
    (net ipApiReq = .resp s (some (.obj df)) → s < 400 →
      ((pyEqStr (dgetD df "status" .null) "success" = false →
        (get_location_by_ip net).1 = .ok none) ∧
       (pyEqStr (dgetD df "status" .null) "success" = true →
        (get_location_by_ip net).1 =
          .ok (some [("city", pyOrElse (dgetD df "city" .null) (.str "Ваш город")),
            ("lat", dgetD df "lat" .null), ("lon", dgetD df "lon" .null)]) ∧
        truthy (pyOrElse (dgetD df "city" .null) (.str "Ваш город")) = true))) := by
  refine ⟨fun h => ?_, fun b h hs => ?_, fun h hs => ⟨fun hst => ?_, fun hst => ⟨?_, ?_⟩⟩⟩
  · simp [get_location_by_ip, tryGetJson, h]
  · simp [get_location_by_ip, tryGetJson, h, hs]
  · simp [get_location_by_ip, tryGetJson, h, Nat.not_le.mpr hs, jgetE_obj, hst,
      Bind.bind, Except.bind, Pure.pure, Except.pure]
  · simp [get_location_by_ip, tryGetJson, h, Nat.not_le.mpr hs, jgetE_obj, hst,
      Bind.bind, Except.bind, Pure.pure, Except.pure]
  · unfold pyOrElse
    by_cases hc : truthy (dgetD df "city" .null)
    · rw [if_pos hc]; exact hc
    · rw [if_neg hc]; rfl

/-- C9 witness: a concrete success response without a city entry yields the
placeholder city and the passed-through coordinates. -/
theorem ip_location_contract_witness :
    (get_location_by_ip (fun _ => .resp 200 (some (.obj
        [("status", .str "success"), ("lat", .num 55), ("lon", .num 37)])))).1 =
      .ok (some [("city", .str "Ваш город"), ("lat", .num 55), ("lon", .num 37)]) :=
  (((ip_location_contract (fun _ => .resp 200 (some (.obj
        [("status", .str "success"), ("lat", .num 55), ("lon", .num 37)]))) 200
        [("status", .str "success"), ("lat", .num 55), ("lon", .num 37)]).2.2 rfl
      (by decide)).2 rfl).1

/-- C5: on the Yandex path, a successful forecast response yields a record
whose description is the condition text with hyphens replaced by spaces and
then title-cased, whose pressure is the pressure_mm value passed through
unconverted, and whose city and country come from the nested geo object with
the caller-supplied city as fallback, tagged live_yandex. -/
theorem yandex_format_contract (svc : WeatherService) (la lo : ℚ) (fb : Option String)
    (net : Net) (now : String) (s : ℕ) (bf ff gf : PyDict) (cond : String)
    (locName ctryName tJ fJ : Json)
    (hnet : net (yandexForecastReq svc.yandex_api_key la lo) = .resp s (some (.obj bf)))
    (hs : s < 400)
    (hfact : dgetD bf "fact" (.obj []) = .obj ff)
    (hgeo : dgetD bf "geo_object" (.obj []) = .obj gf)
    (hloc : jgetE (pyOrElse (dgetD gf "locality" .null) (.obj [])) "name" .null = .ok locName)
    (hctry : jgetE (pyOrElse (dgetD gf "country" .null) (.obj [])) "name" .null = .ok ctryName)
    (hcond : dgetD ff "condition" (.str "") = .str cond)
    (ht : roundOrNullE (dgetD ff "temp" .null) = .ok tJ)
    (hf : roundOrNullE (dgetD ff "feels_like" .null) = .ok fJ) :
    (WeatherService._get_yandex_by_coords svc la lo fb net now).1 =
      .ok (some [("city", pyOrElse locName (pyOrElse (optStrJson fb) (.str "Ваш город"))),
        ("country", ctryName), ("temperature", tJ), ("feels_like", fJ),
        ("description", .str (pyTitle (pyReplaceDash cond))),
        ("humidity", dgetD ff "humidity" .null),
        ("pressure", dgetD ff "pressure_mm" .null),
        ("wind_speed", dgetD ff "wind_speed" .null),
        ("timestamp", .str now), ("source", .str "live_yandex")]) := by
  simp [WeatherService._get_yandex_by_coords, tryGetJson, hnet, Nat.not_le.mpr hs,
    WeatherService._format_yandex_data, jgetE_obj, hfact, hgeo, hloc, hctry, hcond, ht, hf,
    strAttrE, dset, Bind.bind, Except.bind, Pure.pure, Except.pure]

/-- C5 witness: a concrete forecast body with condition partly-cloudy and
pressure_mm 745 yields description Partly Cloudy, pressure 745 and the geo
locality as city. -/
theorem yandex_format_contract_witness :
    ((WeatherService.mk none (some "yk"))._get_yandex_by_coords 1 2 (some "Тверь")
        (fun _ => .resp 200 (some yandexDemoBody)) "t").1 =
      .ok (some [("city", .str "Москва"), ("country", .str "Россия"), ("temperature", .null),
        ("feels_like", .null), ("description", .str "Partly Cloudy"), ("humidity", .num 80),
        ("pressure", .num 745), ("wind_speed", .num 5), ("timestamp", .str "t"),
        ("source", .str "live_yandex")]) :=
  yandex_format_contract (WeatherService.mk none (some "yk")) 1 2 (some "Тверь")
    (fun _ => .resp 200 (some yandexDemoBody)) "t" 200
    [("fact", .obj yandexDemoFact), ("geo_object", .obj yandexDemoGeo)]
    yandexDemoFact yandexDemoGeo "partly-cloudy" (.str "Москва") (.str "Россия") .null .null
    rfl (by decide) rfl rfl rfl rfl rfl rfl rfl

/-- C8 counterexample: the two legacy WeatherParser provider calls are issued
with no timeout argument at all, so the claim that every outbound call passes
a fixed timeout fails on the cited legacy lines. -/
theorem parser_call_without_timeout_cex :
    ((WeatherParser.mk (some "k")).get_weather_by_city "Москва" (fun _ => .netErr) "t").2 =
      [wpCityReq (some "k") "Москва"] ∧
    (wpCityReq (some "k") "Москва").timeout = none ∧
    ((WeatherParser.mk (some "k")).get_weather_by_coords 55 37 none
        (fun _ => .netErr) "t").2 = [wpCoordsReq (some "k") 55 37] ∧
    (wpCoordsReq (some "k") 55 37).timeout = none :=
  ⟨rfl, rfl, rfl, rfl⟩

/-- C8 (amended): every WeatherService outbound call (provider, geocoding)
passes timeout 10 and the IP-geolocation call passes timeout 5; the legacy
WeatherParser calls, however, are issued without a timeout. -/
theorem service_calls_have_timeouts (svc : WeatherService) (city : String) (la lo : ℚ)
    (fb : Option String) (net : Net) (now : String) :
    ((svc.get_weather_by_city city net now).2.all fun r => decide (r.timeout = some 10)) =
      true ∧
    ((svc.get_weather_by_coords la lo fb net now).2.all fun r =>
      decide (r.timeout = some 10)) = true ∧
    ((get_location_by_ip net).2.all fun r => decide (r.timeout = some 5)) = true := by
  refine ⟨?_, ?_, rfl⟩
  · by_cases hY : strTruthy svc.yandex_api_key
    · simp only [WeatherService.get_weather_by_city, hY, if_true]
      rcases hg : WeatherService._geocode_city svc
        (WeatherService._normalize_city_name city) net with ⟨r, lg⟩
      have hlg : lg = [nominatimReq (WeatherService._normalize_city_name
          (WeatherService._normalize_city_name city))] := by
        have h2 : (WeatherService._geocode_city svc
            (WeatherService._normalize_city_name city) net).2 =
            [nominatimReq (WeatherService._normalize_city_name
              (WeatherService._normalize_city_name city))] := rfl
        rw [hg] at h2
        exact h2
      subst hlg
      unfold WeatherService._get_yandex_by_city
      rw [hg]
      cases r with
      | error e => rfl
      | ok o =>
        cases o with
        | none => rfl
        | some c => rcases c with ⟨la2, lo2⟩; rfl
    · by_cases hA : strTruthy svc.api_key <;>
        simp [WeatherService.get_weather_by_city, hY, hA, owmCityReq]
  · by_cases hY : strTruthy svc.yandex_api_key
    · simp only [WeatherService.get_weather_by_coords, hY, if_true]
      rfl
    · by_cases hA : strTruthy svc.api_key <;>
        simp [WeatherService.get_weather_by_coords, hY, hA, owmCoordsReq]

/-- C1 counterexample: an outbound call that succeeds (status 200, valid JSON)
but whose body lacks the expected fields makes the formatting raise an
uncaught exception to the caller of get_weather_by_city: a TypeError from
round(None) on the service path, a KeyError on the legacy path.  This refutes
the part of the claim covering response bodies that lack expected fields. -/
theorem owm_missing_fields_raises_cex :
    ((WeatherService.mk (some "k") none).get_weather_by_city "Москва"
        (fun _ => .resp 200 (some (.obj []))) "t").1 = .error .typeError ∧
    ((WeatherParser.mk (some "k")).get_weather_by_city "Москва"
        (fun _ => .resp 200 (some (.obj []))) "t").1 = .error (.keyError "name") :=
  ⟨rfl, rfl⟩

/-- C1 (amended): any network error, timeout, HTTP error status or undecodable
body on an outbound call makes the lookup return absent with no exception, on
every provider path of both lookup classes; this also holds when only the
Yandex forecast call fails after a successful geocode.  However, a call that
succeeds with a body lacking expected fields can raise to the caller. -/
theorem failed_calls_return_none (svc : WeatherService) (p : WeatherParser) (city : String)
    (la lo : ℚ) (fb : Option String) (net : Net) (now : String) :
    ((∀ r, failedCall (net r) = true) →
      ((strTruthy svc.api_key || strTruthy svc.yandex_api_key) = true →
        (svc.get_weather_by_city city net now).1 = .ok none ∧
        (svc.get_weather_by_coords la lo fb net now).1 = .ok none) ∧
      (strTruthy p.api_key = true →
        (p.get_weather_by_city city net now).1 = .ok none ∧
        (p.get_weather_by_coords la lo fb net now).1 = .ok none)) ∧
    (∀ la2 lo2, strTruthy svc.yandex_api_key = true →
      (WeatherService._geocode_city svc (WeatherService._normalize_city_name city) net).1 =
        .ok (some (la2, lo2)) →
      failedCall (net (yandexForecastReq svc.yandex_api_key la2 lo2)) = true →
      (svc.get_weather_by_city city net now).1 = .ok none) := by
  constructor
  · intro hall
    have htj : ∀ req, tryGetJson net req = none := fun req => tryGetJson_of_failed (hall req)
    have hAof : strTruthy svc.yandex_api_key = false →
        (strTruthy svc.api_key || strTruthy svc.yandex_api_key) = true →
        strTruthy svc.api_key = true := by
      intro hY hk
      simp only [Bool.or_eq_true] at hk
      rcases hk with h | h
      · exact h
      · exact absurd h (by simp [hY])
    constructor
    · intro hk
      constructor
      · by_cases hY : strTruthy svc.yandex_api_key
        · have hg := geocode_none_of_miss svc (WeatherService._normalize_city_name city)
            (geoMiss_of_failed (hall _))
          simp [WeatherService.get_weather_by_city, hY,
            WeatherService._get_yandex_by_city, hg]
        · have hA := hAof (Bool.not_eq_true _ ▸ hY) hk
          simp [WeatherService.get_weather_by_city, hY, hA, htj]
      · by_cases hY : strTruthy svc.yandex_api_key
        · simp [WeatherService.get_weather_by_coords, hY,
            WeatherService._get_yandex_by_coords, htj]
        · have hA := hAof (Bool.not_eq_true _ ▸ hY) hk
          simp [WeatherService.get_weather_by_coords, hY, hA, htj]
    · intro hp
      constructor
      · simp [WeatherParser.get_weather_by_city, hp, htj]
      · simp [WeatherParser.get_weather_by_coords, hp, htj]
  · intro la2 lo2 hY hg hfail
    have hpair : WeatherService._geocode_city svc
        (WeatherService._normalize_city_name city) net =
        ((WeatherService._geocode_city svc (WeatherService._normalize_city_name city) net).1,
         [nominatimReq (WeatherService._normalize_city_name
           (WeatherService._normalize_city_name city))]) := rfl
    have h2 := tryGetJson_of_failed hfail
    simp only [WeatherService.get_weather_by_city, hY, if_true]
    unfold WeatherService._get_yandex_by_city
    rw [hpair, hg]
    simp [WeatherService._get_yandex_by_coords, h2]

/-- C1 witness: with an OpenWeatherMap key and a network that always fails,
the city lookup returns absent. -/
theorem failed_calls_return_none_witness :
    ((WeatherService.mk (some "k") none).get_weather_by_city "Москва"
        (fun _ => .netErr) "t").1 = .ok none :=
  (((failed_calls_return_none (WeatherService.mk (some "k") none) (WeatherParser.mk none)
      "Москва" 0 0 none (fun _ => .netErr) "t").1 (fun _ => rfl)).1 rfl).1

/-- C2 counterexample: a successful Yandex forecast response with an empty
body makes the lookup return a record whose required numeric fields are null
and whose description is empty, refuting the claim that a returned record is
always fully populated. -/
theorem yandex_partial_record_cex :
    ((WeatherService.mk none (some "yk")).get_weather_by_coords 55 37 none
        (fun _ => .resp 200 (some (.obj []))) "t").1 =
      .ok (some [("city", .str "Ваш город"), ("country", .null), ("temperature", .null),
        ("feels_like", .null), ("description", .str ""), ("humidity", .null),
        ("pressure", .null), ("wind_speed", .null), ("timestamp", .str "t"),
        ("source", .str "live_yandex")]) ∧
    dget [("city", Json.str "Ваш город"), ("country", .null), ("temperature", .null),
        ("feels_like", .null), ("description", .str ""), ("humidity", .null),
        ("pressure", .null), ("wind_speed", .null), ("timestamp", .str "t"),
        ("source", .str "live_yandex")] "temperature" = some .null :=
  ⟨rfl, rfl⟩

/-- C2 (amended): every record a WeatherService lookup returns carries all the
required keys (city, temperature, description, humidity, pressure, wind_speed,
timestamp, source), but the values of provider-omitted fields can be null on
the Yandex path, so full population of values is not guaranteed. -/
theorem returned_record_has_all_keys (svc : WeatherService) (city : String) (la lo : ℚ)
    (fb : Option String) (net : Net) (now : String) (d : PyDict) :
    ((svc.get_weather_by_city city net now).1 = .ok (some d) → hasAllKeys d = true) ∧
    ((svc.get_weather_by_coords la lo fb net now).1 = .ok (some d) → hasAllKeys d = true) := by
  constructor
  · intro h
    by_cases hY : strTruthy svc.yandex_api_key
    · simp only [WeatherService.get_weather_by_city, hY, if_true] at h
      rcases hgp : WeatherService._geocode_city svc
        (WeatherService._normalize_city_name city) net with ⟨r, lg⟩
      unfold WeatherService._get_yandex_by_city at h
      rw [hgp] at h
      cases r with
      | error e => exact Except.noConfusion h
      | ok o =>
        cases o with
        | none => exact Option.noConfusion (Except.ok.inj h)
        | some c =>
          rcases c with ⟨la2, lo2⟩
          simp only [] at h
          exact yandex_coords_all_keys h
    · by_cases hA : strTruthy svc.api_key
      · simp only [WeatherService.get_weather_by_city, hY, hA, Bool.not_true,
          Bool.false_eq_true, if_false, Bool.not_false, if_true] at h
        cases htj : tryGetJson net (owmCityReq svc.api_key
            (WeatherService._normalize_city_name city)) with
        | none => rw [htj] at h; exact Option.noConfusion (Except.ok.inj h)
        | some data =>
          rw [htj] at h
          simp only [] at h
          cases hfm : WeatherService._format_weather_data data now with
          | error e => rw [hfm] at h; exact Except.noConfusion h
          | ok d0 =>
            rw [hfm] at h
            simp only [] at h
            obtain ⟨c, co, t, f, de, hu, p, w, hd0⟩ := format_weather_shape hfm
            have hd : d = dset d0 "source" (.str "live") :=
              (Option.some.inj (Except.ok.inj h)).symm
            rw [hd, hd0]
            exact hasAllKeys_of_shape9 c co t f de hu p w (.str "live") now
      · simp only [WeatherService.get_weather_by_city, hY, hA, Bool.not_true,
          Bool.false_eq_true, if_false, Bool.not_false, if_true] at h
        have hd : d = dset (WeatherService._get_weather_mock
            (WeatherService._normalize_city_name city) now) "source" (.str "mock") :=
          (Option.some.inj (Except.ok.inj h)).symm
        rw [hd]
        rfl
  · intro h
    by_cases hY : strTruthy svc.yandex_api_key
    · simp only [WeatherService.get_weather_by_coords, hY, if_true] at h
      exact yandex_coords_all_keys h
    · by_cases hA : strTruthy svc.api_key
      · simp only [WeatherService.get_weather_by_coords, hY, hA, Bool.not_true,
          Bool.false_eq_true, if_false, Bool.not_false, if_true] at h
        cases htj : tryGetJson net (owmCoordsReq svc.api_key la lo) with
        | none => rw [htj] at h; exact Option.noConfusion (Except.ok.inj h)
        | some data =>
          rw [htj] at h
          simp only [] at h
          cases hfm : WeatherService._format_weather_data data now with
          | error e => rw [hfm] at h; exact Except.noConfusion h
          | ok d0 =>
            rw [hfm] at h
            simp only [] at h
            obtain ⟨c, co, t, f, de, hu, p, w, hd0⟩ := format_weather_shape hfm
            have hd : d = dset d0 "source" (.str "live") :=
              (Option.some.inj (Except.ok.inj h)).symm
            rw [hd, hd0]
            exact hasAllKeys_of_shape9 c co t f de hu p w (.str "live") now
      · simp only [WeatherService.get_weather_by_coords, hY, hA, Bool.not_true,
          Bool.false_eq_true, if_false, Bool.not_false, if_true] at h
        have hd : d = dset (WeatherService._get_weather_mock (orDefaultCity fb) now)
            "source" (.str "mock") := (Option.some.inj (Except.ok.inj h)).symm
        rw [hd]
        rfl

/-- C2 witness: the mock-mode record for a concrete query has all required
keys. -/
theorem returned_record_has_all_keys_witness :
    hasAllKeys (dset (WeatherService._get_weather_mock "Москва" "t") "source"
      (.str "mock")) = true :=
  (returned_record_has_all_keys (WeatherService.mk none none) "Москва" 0 0 none
    (fun _ => .netErr) "t"
    (dset (WeatherService._get_weather_mock "Москва" "t") "source" (.str "mock"))).1 rfl

